import Mathlib

/-!
Shallow embedding of the GridTanks backend (FastAPI, `app/routes.py`,
`app/models.py`, `app/main.py`).

Python dictionaries are modelled as association lists (`Dict α β`) whose
`insert` replaces the first binding of a key in place and appends new keys,
matching CPython dict semantics for the operations the code uses.
The in-memory run-session store `ACTIVE_RUNS` is a `Dict String GameState`;
in-place mutation of a run's dict becomes re-insertion of the updated state.
Exceptions escaping a handler (Python `KeyError`, SQLAlchemy `TypeError`,
`HTTPException`) are modelled as explicit result constructors that also carry
the store as it stands when the exception propagates, since CPython mutations
performed before the raise are not undone.
`time.time()` floats are modelled as rationals supplied as a `now` parameter.
-/

set_option autoImplicit false

namespace GridTanks

/-- Association-list model of a Python `dict`. -/
abbrev Dict (α β : Type) : Type := List (α × β)

namespace Dict

variable {α β : Type} [DecidableEq α]

/-- `d[k]` lookup: first binding wins (keys are unique in practice). -/
def find? (d : Dict α β) (k : α) : Option β :=
  match d with
  | [] => none
  | (k', v) :: rest => if k = k' then some v else find? rest k

/-- `d[k] = v`: replace the first binding of `k` in place, else append. -/
def insert (d : Dict α β) (k : α) (v : β) : Dict α β :=
  match d with
  | [] => [(k, v)]
  | (k', v') :: rest =>
      if k = k' then (k, v) :: rest else (k', v') :: insert rest k v

/-- `del d[k]`: drop the first binding of `k`. -/
def erase (d : Dict α β) (k : α) : Dict α β :=
  match d with
  | [] => []
  | (k', v') :: rest => if k = k' then rest else (k', v') :: erase rest k

/-- `k in d`. -/
def mem (d : Dict α β) (k : α) : Bool :=
  (find? d k).isSome

/-- `sum(d.values())` for a counts dict. -/
def valuesSum (d : Dict α Nat) : Nat :=
  (d.map Prod.snd).sum

theorem find?_insert_self (d : Dict α β) (k : α) (v : β) :
    find? (insert d k v) k = some v := by
  induction d with
  | nil => simp [insert, find?]
  | cons kv rest ih =>
      by_cases h : k = kv.1
      · simp [insert, find?, h]
      · simp [insert, find?, h, ih]

theorem find?_insert_ne (d : Dict α β) (k k' : α) (v : β) (h : k' ≠ k) :
    find? (insert d k v) k' = find? d k' := by
  induction d with
  | nil => simp [insert, find?, h]
  | cons kv rest ih =>
      by_cases hk : k = kv.1
      · subst hk
        simp [insert, find?, h, ih]
      · by_cases hk' : k' = kv.1
        · simp [insert, find?, hk, hk']
        · simp [insert, find?, hk, hk', ih]

theorem find?_erase_ne (d : Dict α β) (k k' : α) (h : k' ≠ k) :
    find? (erase d k) k' = find? d k' := by
  induction d with
  | nil => simp [erase]
  | cons kv rest ih =>
      by_cases hk : k = kv.1
      · subst hk
        simp [erase, find?, h]
      · by_cases hk' : k' = kv.1
        · simp [erase, find?, hk, hk']
        · simp [erase, find?, hk, hk', ih]

theorem valuesSum_insert (d : Dict α Nat) (k : α) (v v₀ : Nat)
    (h : find? d k = some v₀) :
    valuesSum (insert d k v) + v₀ = valuesSum d + v := by
  induction d with
  | nil => simp [find?] at h
  | cons kv rest ih =>
      by_cases hk : k = kv.1
      · simp [find?, hk] at h
        subst h
        simp [insert, hk, valuesSum]
        omega
      · simp [find?, hk] at h
        have := ih h
        simp [insert, hk, valuesSum] at this ⊢
        omega

theorem valuesSum_insert_new (d : Dict α Nat) (k : α) (v : Nat)
    (h : find? d k = none) :
    valuesSum (insert d k v) = valuesSum d + v := by
  induction d with
  | nil => simp [insert, valuesSum]
  | cons kv rest ih =>
      by_cases hk : k = kv.1
      · simp [find?, hk] at h
      · simp [find?, hk] at h
        have := ih h
        simp [insert, hk, valuesSum] at this ⊢
        omega

/-- The keys of a dict, in order. -/
def keys (d : Dict α β) : List α := d.map Prod.fst

theorem find?_eq_none (d : Dict α β) (k : α) (h : k ∉ keys d) :
    find? d k = none := by
  induction d with
  | nil => simp [find?]
  | cons kv rest ih =>
      rw [keys, List.map_cons, List.mem_cons] at h
      push_neg at h
      simp [find?, h.1]
      exact ih h.2

theorem find?_erase_self (d : Dict α β) (k : α) (h : (keys d).Nodup) :
    find? (erase d k) k = none := by
  induction d with
  | nil => simp [erase, find?]
  | cons kv rest ih =>
      rw [keys, List.map_cons, List.nodup_cons] at h
      by_cases hk : k = kv.1
      · subst hk
        simp [erase]
        exact find?_eq_none rest kv.1 h.1
      · simp [erase, find?, hk]
        exact ih h.2

theorem insert_insert_self (d : Dict α β) (k : α) (v : β) :
    insert (insert d k v) k v = insert d k v := by
  induction d with
  | nil => simp [insert]
  | cons kv rest ih =>
      by_cases hk : k = kv.1
      · simp [insert, hk]
      · simp [insert, hk, ih]

theorem valuesSum_bump (d : Dict α Nat) (k : α) :
    valuesSum (insert d k ((find? d k).getD 0 + 1)) = valuesSum d + 1 := by
  cases h : find? d k with
  | none => simp [h, valuesSum_insert_new d k _ h]
  | some v₀ =>
      have := valuesSum_insert d k (v₀ + 1) v₀ h
      simp [h] at this ⊢
      omega

end Dict

/-- `TANK_TYPES` from `routes.py`: cell code to tank name. -/
def TANK_TYPES : Dict Nat String :=
  [(3, "player"), (4, "brown"), (5, "grey"), (6, "green"),
   (7, "pink"), (8, "black")]

/-- Position recorded for the player spawn (`{"x": col_idx, "y": row_idx}`). -/
structure Spawn where
  x : Nat
  y : Nat
  deriving DecidableEq, Repr

/-- One entry of `LEVEL_METADATA`. -/
structure LevelInfo where
  total_enemy_tanks : Nat
  enemy_tank_types : Dict Nat Nat
  player_spawn : Option Spawn
  tank_type_names : Dict Nat String
  deriving DecidableEq, Repr

/-!
Python string primitives, implemented by structural recursion over the
character list of a `String` so that every use reduces in the kernel.
-/

/-- Python `str.strip()` (on the whitespace this code meets). -/
def pyStrip (s : String) : String :=
  ⟨((s.data.dropWhile Char.isWhitespace).reverse.dropWhile
      Char.isWhitespace).reverse⟩

/-- Python `s.split(sep)` for a single-character separator. -/
def splitOnChar (sep : Char) : List Char → List (List Char)
  | [] => [[]]
  | c :: rest =>
      if c = sep then [] :: splitOnChar sep rest
      else
        match splitOnChar sep rest with
        | [] => [[c]]
        | g :: gs => (c :: g) :: gs

/-- Python `s.split("\n\n")`: split on non-overlapping double newlines,
scanning left to right. -/
def splitOnBlank : List Char → List (List Char)
  | '\n' :: '\n' :: rest => [] :: splitOnBlank rest
  | c :: rest =>
      match splitOnBlank rest with
      | [] => [[c]]
      | g :: gs => (c :: g) :: gs
  | [] => [[]]

/-- Splitting on a character predicate, keeping empty pieces. -/
def splitOnPred (p : Char → Bool) : List Char → List (List Char)
  | [] => [[]]
  | c :: rest =>
      if p c then [] :: splitOnPred p rest
      else
        match splitOnPred p rest with
        | [] => [[c]]
        | g :: gs => (c :: g) :: gs

/-- Python `str.isdigit()` for the ASCII strings this code meets. -/
def pyIsDigit (s : String) : Bool :=
  !s.data.isEmpty && s.data.all Char.isDigit

/-- Python `int(s)` for a digit string. -/
def pyToNat (s : String) : Nat :=
  s.data.foldl (fun n c => n * 10 + (c.toNat - '0'.toNat)) 0

/-- Python `line.split()`: split on whitespace runs, dropping empty pieces. -/
def pySplit (s : String) : List String :=
  ((splitOnPred Char.isWhitespace s.data).filter (· ≠ [])).map String.mk

/-- Python `stem.replace("level_", "")`: delete every non-overlapping
occurrence of `level_`, scanning left to right. -/
def dropLevelMarker : List Char → List Char
  | 'l' :: 'e' :: 'v' :: 'e' :: 'l' :: '_' :: rest => dropLevelMarker rest
  | c :: rest => c :: dropLevelMarker rest
  | [] => []

/-- Accumulator of the tank-counting loop in `preprocess_levels`. -/
structure ScanAcc where
  tank_counts : Dict Nat Nat
  player_spawn : Option Spawn
  deriving DecidableEq, Repr

/-- Body of the inner cell loop of `preprocess_levels`: a digit cell of code 3
sets (overwrites) the player spawn, a digit cell of code above 3 increments
that enemy type's count, anything else is ignored. -/
def processCell (row_idx col_idx : Nat) (cell : String) (acc : ScanAcc) :
    ScanAcc :=
  if pyIsDigit cell then
    let cell_type := pyToNat cell
    if cell_type = 3 then
      { acc with player_spawn := some ⟨col_idx, row_idx⟩ }
    else if cell_type > 3 then
      let newCount := (acc.tank_counts.find? cell_type).getD 0 + 1
      { acc with tank_counts := acc.tank_counts.insert cell_type newCount }
    else acc
  else acc

/-- Body of the row loop: a line is scanned only when `line.strip()` is
nonempty and the line contains a space character. -/
def processLine (row_idx : Nat) (line : String) (acc : ScanAcc) : ScanAcc :=
  if !(pyStrip line).data.isEmpty && line.data.contains ' ' then
    (pySplit line).enum.foldl
      (fun a p => processCell row_idx p.1 p.2 a) acc
  else acc

/-- Parse one level file's content into its `LEVEL_METADATA` entry: take the
part before the first blank line, scan its rows, and derive the totals and
the name map. -/
def parseLevelContent (content : String) : LevelInfo :=
  let map_section := (splitOnBlank (pyStrip content).data).headD []
  let lines := (splitOnChar '\n' map_section).map String.mk
  let acc : ScanAcc :=
    lines.enum.foldl (fun a p => processLine p.1 p.2 a) ⟨[], none⟩
  { total_enemy_tanks := acc.tank_counts.valuesSum
    enemy_tank_types := acc.tank_counts
    player_spawn := acc.player_spawn
    tank_type_names :=
      acc.tank_counts.map (fun kv =>
        (kv.1, (TANK_TYPES.find? kv.1).getD ("unknown_" ++ toString kv.1))) }

/-- `preprocess_levels`: files are given as `(stem, content)` pairs, the glob
results for `level_*.txt` with the `.txt` suffix already stripped (Python's
`Path.stem`).  A stem whose remainder after removing `level_` is not a digit
string is skipped; otherwise its metadata entry is stored. -/
def preprocess_levels (files : List (String × String)) : Dict Nat LevelInfo :=
  files.foldl
    (fun md f =>
      let number_part : String := ⟨dropLevelMarker (f.1).data⟩
      if pyIsDigit number_part then
        md.insert (pyToNat number_part) (parseLevelContent f.2)
      else md)
    []

/-- Outcome of process startup: `routes.py` runs `preprocess_levels()` at
module-import time and `main.py` then constructs the app and serves; there
is no error path, so startup always reaches `serving` with whatever catalog
the loader produced. -/
inductive StartupOutcome where
  | serving (catalog : Dict Nat LevelInfo)
  | fatal
  deriving DecidableEq, Repr

/-- Module-import-time startup of the backend. -/
def startupOutcome (files : List (String × String)) : StartupOutcome :=
  .serving (preprocess_levels files)

/-- One run's `game_state` dict from `ACTIVE_RUNS`. -/
structure GameState where
  current_level : Nat
  tanks_eliminated : Dict Nat (Dict Nat Nat)
  total_eliminated : Nat
  start_time : ℚ
  end_time : Option ℚ
  completed_levels : List Nat
  deriving DecidableEq, Repr

/-- The fresh run state created by `POST /start-game`. -/
def freshRun (now : ℚ) : GameState :=
  { current_level := 1
    tanks_eliminated := []
    total_eliminated := 0
    start_time := now
    end_time := none
    completed_levels := [] }

/-- JSON body returned by `POST /game-event`; `none` fields are keys absent
from the Python response dict. -/
structure EventResp where
  message : String
  tank_type : Option Nat := none
  level_reset : Option Bool := none
  current_level : Option Nat := none
  level_complete : Option Bool := none
  next_level : Option Nat := none
  game_complete : Option Bool := none
  deriving DecidableEq, Repr

/-- Result of a `POST /game-event` request.  `keyError` is an uncaught Python
`KeyError` (FastAPI surfaces it as a 500), `httpError` an `HTTPException`.
Each constructor carries the run store as the request leaves it. -/
inductive GameEventResult where
  | keyError (runs : Dict String GameState)
  | httpError (status : Nat) (detail : String) (runs : Dict String GameState)
  | ok (resp : EventResp) (runs : Dict String GameState)
  deriving DecidableEq, Repr

/-- `POST /game-event` (`game_event` in `routes.py`).  `files` is the set of
level numbers `n` for which `maps/level_n.txt` exists; `meta` is
`LEVEL_METADATA`; `runs` is `ACTIVE_RUNS`. -/
def game_event (files : List Nat) (meta : Dict Nat LevelInfo)
    (runs : Dict String GameState) (run_id : String) (tank_type : Nat) :
    GameEventResult :=
  match runs.find? run_id with
  | none => .keyError runs
  | some game_state =>
    let current_level := game_state.current_level
    match TANK_TYPES.find? tank_type with
    | none => .keyError runs
    | some name =>
      if name = "player" then
        let game_state' :=
          { game_state with
              tanks_eliminated := game_state.tanks_eliminated.erase current_level }
        .ok { message := "Player eliminated - level reset"
              level_reset := some true
              current_level := some current_level }
           (runs.insert run_id game_state')
      else
        if ¬ runs.mem run_id then .httpError 404 "Run not found" runs
        else
          match meta.find? current_level with
          | none => .httpError 400 "Invalid level" runs
          | some level_info =>
            match level_info.enemy_tank_types.find? tank_type with
            | none => .httpError 400 "Invalid tank type for current level" runs
            | some catalog_count =>
              let level_eliminations :=
                (game_state.tanks_eliminated.find? current_level).getD []
              let newCount :=
                (level_eliminations.find? tank_type).getD 0 + 1
              let level_eliminations' :=
                level_eliminations.insert tank_type newCount
              let game_state' :=
                { game_state with
                    tanks_eliminated :=
                      game_state.tanks_eliminated.insert current_level
                        level_eliminations' }
              let runs' := runs.insert run_id game_state'
              if newCount > catalog_count then
                .httpError 400 "Too many tanks eliminated" runs'
              else
                let total_eliminated_this_level := level_eliminations'.valuesSum
                let level_complete :=
                  total_eliminated_this_level = level_info.total_enemy_tanks
                if level_complete then
                  let game_state₂ :=
                    { game_state' with
                        completed_levels :=
                          game_state'.completed_levels ++ [current_level] }
                  let next_level := current_level + 1
                  if next_level ∈ files then
                    .ok { message := "Level complete! Advancing to next level."
                          tank_type := some tank_type
                          level_complete := some true
                          next_level := some next_level }
                       (runs.insert run_id
                         { game_state₂ with current_level := next_level })
                  else
                    .ok { message := "Congratulations! Game completed!"
                          tank_type := some tank_type
                          level_complete := some true
                          game_complete := some true }
                       (runs.insert run_id game_state₂)
                else
                  .ok { message := "Tank elimination recorded"
                        tank_type := some tank_type
                        level_complete := some false }
                     runs'

/-- Sum of the recorded elimination counts of level `L` in a run state
(`sum(level_eliminations.values())` over the level's dict, 0 if absent). -/
def levelSum (gs : GameState) (L : Nat) : Nat :=
  ((gs.tanks_eliminated.find? L).getD []).valuesSum

/-- Sequential application of `POST /game-event` requests on one run:
`none` as soon as one request does not return a 200 response. -/
def runEvents (files : List Nat) (meta : Dict Nat LevelInfo)
    (runs : Dict String GameState) (run_id : String) :
    List Nat → Option (Dict String GameState × List EventResp)
  | [] => some (runs, [])
  | t :: ts =>
      match game_event files meta runs run_id t with
      | .ok resp runs₁ =>
          (runEvents files meta runs₁ run_id ts).map
            (fun p => (p.1, resp :: p.2))
      | _ => none

/-- Response of `POST /get-final-stats`. -/
structure FinalStatsResp where
  final_level : Nat
  time : String
  deriving DecidableEq, Repr

/-- `f"{minutes}:{seconds:02d}"` for the MM:SS display string. -/
def formatMMSS (minutes : ℤ) (seconds : ℤ) : String :=
  toString minutes ++ ":" ++
    (if 0 ≤ seconds ∧ seconds < 10 then "0" ++ toString seconds
     else toString seconds)

/-- Python `t // 60` on a nonnegative-or-not rational: floor division. -/
def pyFloorDiv60 (t : ℚ) : ℤ := Int.floor (t / 60)

/-- Python `t % 60`: remainder with the divisor's sign, here in `[0, 60)`. -/
def pyMod60 (t : ℚ) : ℚ := t - 60 * Int.floor (t / 60)

/-- `POST /get-final-stats` (`get_final_stats` in `routes.py`): freeze
`end_time` on first call, then report `current_level` and the elapsed time
formatted MM:SS. -/
def get_final_stats (now : ℚ) (runs : Dict String GameState)
    (run_id : String) :
    Except Unit (FinalStatsResp × Dict String GameState) :=
  match runs.find? run_id with
  | none => .error ()
  | some game_state =>
    let game_state :=
      if game_state.end_time = none then
        { game_state with end_time := some now }
      else game_state
    let final_level := game_state.current_level
    let total_time_seconds :=
      (game_state.end_time.getD 0) - game_state.start_time
    let minutes := pyFloorDiv60 total_time_seconds
    let seconds := Int.floor (pyMod60 total_time_seconds)
    .ok ({ final_level := final_level
           time := formatMMSS minutes seconds },
         runs.insert run_id game_state)

/-- A Python value carried in SQLAlchemy model keyword arguments. -/
inductive PyValue where
  | str (s : String)
  | int (z : ℤ)
  deriving DecidableEq, Repr

/-- Column attributes of `LeaderboardEntry` as declared in `app/models.py`. -/
def leaderboardColumns : List String :=
  ["id", "username", "completed_levels", "time_seconds", "formatted_time",
   "deaths", "date_submitted"]

/-- The SQLAlchemy declarative constructor `LeaderboardEntry(**kwargs)`:
each keyword must name an attribute of the mapped class, otherwise the
constructor raises `TypeError`. -/
def mkLeaderboardEntry (kwargs : Dict String PyValue) :
    Except Unit (Dict String PyValue) :=
  if kwargs.all (fun kv => leaderboardColumns.contains kv.1) then
    .ok kwargs
  else .error ()

/-- Python `int(q)` on a float/number: truncation toward zero. -/
def pyInt (q : ℚ) : ℤ :=
  if 0 ≤ q then Int.floor q else Int.ceil q

/-- Response of a successful `POST /submit-score`. -/
structure SubmitResp where
  message : String
  final_level : Nat
  time : String
  username : String
  deriving DecidableEq, Repr

/-- Result of `POST /submit-score`.  `typeError` is the uncaught Python
`TypeError` from the `LeaderboardEntry` constructor (a 500 for the client);
`commitError` a database failure raised by `db.commit()`.  Both carry the
store as the exception leaves it (the `end_time` freeze is already applied,
the run is not removed). -/
inductive SubmitResult where
  | httpError (status : Nat) (detail : String) (runs : Dict String GameState)
  | typeError (runs : Dict String GameState)
  | commitError (runs : Dict String GameState)
  | ok (resp : SubmitResp) (entry : Dict String PyValue)
      (runs : Dict String GameState)
  deriving DecidableEq, Repr

/-- `POST /submit-score` (`submit_score` in `routes.py`).  `commit_ok` is
whether `db.commit()` succeeds; `email` is `None` or the given string. -/
def submit_score (now : ℚ) (commit_ok : Bool)
    (runs : Dict String GameState) (run_id username : String)
    (email : Option String) : SubmitResult :=
  if username = "" then
    .httpError 400 "Username is required" runs
  else if username.length > 20 then
    .httpError 400 "Username must be 20 characters or less" runs
  else if (email.getD "") ≠ "" && (email.getD "").length > 255 then
    .httpError 400 "Email must be 255 characters or less" runs
  else
    match runs.find? run_id with
    | none => .httpError 404 "Run not found" runs
    | some game_state =>
      let game_state :=
        if game_state.end_time = none then
          { game_state with end_time := some now }
        else game_state
      let runs₁ := runs.insert run_id game_state
      let final_level := game_state.current_level
      let total_time_seconds :=
        pyInt ((game_state.end_time.getD 0) - game_state.start_time)
      let minutes := Int.fdiv total_time_seconds 60
      let seconds := Int.fmod total_time_seconds 60
      let formatted_time := formatMMSS minutes seconds
      match mkLeaderboardEntry
          [("username", .str username),
           ("stage_reached", .int final_level),
           ("time_seconds", .int total_time_seconds),
           ("formatted_time", .str formatted_time)] with
      | .error _ => .typeError runs₁
      | .ok entry =>
        if commit_ok then
          .ok { message := "Score submitted successfully"
                final_level := final_level
                time := formatted_time
                username := username }
             entry (runs₁.erase run_id)
        else .commitError runs₁

/-! ### Claim theorems -/

/-- A run state sitting exactly at the catalog limit for tank type 4 on
level 1: two eliminations of type 4 recorded, catalog count 2. -/
def atLimitState : GameState :=
  { current_level := 1
    tanks_eliminated := [(1, [(4, 2)])]
    total_eliminated := 0
    start_time := 0
    end_time := none
    completed_levels := [] }

/-- C1.  The claim says an elimination event whose incremented count would
exceed the catalog count fails with OverElimination AND rolls the increment
back, leaving the run's state unchanged.  The code raises the 400
"Too many tanks eliminated" only after the increment has been written to the
run's dict, and never undoes it: on a level whose catalog holds two type-4
tanks, a third type-4 event leaves the recorded count at 3 > 2, violating the
claimed invariant `eliminationsByLevel[L][T] ≤ LevelCatalog[L].enemyTankCounts[T]`. -/
theorem over_elimination_not_rolled_back :
    (parseLevelContent "4 4").enemy_tank_types.find? 4 = some 2
    ∧ game_event [1] [(1, parseLevelContent "4 4")] [("r", atLimitState)] "r" 4 =
        .httpError 400 "Too many tanks eliminated"
          [("r", { atLimitState with tanks_eliminated := [(1, [(4, 3)])] })]
    ∧ ((atLimitState.tanks_eliminated.find? 1).getD []).find? 4 = some 2 := by
  refine ⟨rfl, rfl, rfl⟩

/-- C2.  A `POST /game-event` whose `run_id` is not in `ACTIVE_RUNS` hits
`ACTIVE_RUNS[run_id]` before any membership check, so it raises an uncaught
`KeyError` (a 500 for the client), not the 404 NotFound the claim states;
the dead `if run_id not in ACTIVE_RUNS` guard further down is never reached.
This holds both for enemy-type (4) and player-type (3) events, and the store
is left unchanged. -/
theorem game_event_unknown_run_keyerror :
    game_event [1] [(1, parseLevelContent "4 4")] [] "ghost" 4 = .keyError []
    ∧ game_event [1] [(1, parseLevelContent "4 4")] [] "ghost" 3 = .keyError []
    ∧ game_event [1] [(1, parseLevelContent "4 4")] [("r", atLimitState)]
        "ghost" 4 = .keyError [("r", atLimitState)] := by
  refine ⟨rfl, rfl, rfl⟩

/-- The in-code 404 "Run not found" branch of `game_event` is dead code: the
store has already been indexed successfully when it is evaluated. -/
theorem game_event_404_unreachable (files : List Nat)
    (meta : Dict Nat LevelInfo) (runs : Dict String GameState)
    (run_id : String) (tank_type : Nat) (runs' : Dict String GameState) :
    game_event files meta runs run_id tank_type ≠
      .httpError 404 "Run not found" runs' := by
  unfold game_event
  cases hgs : runs.find? run_id with
  | none => simp
  | some gs =>
      cases htt : TANK_TYPES.find? tank_type with
      | none => simp
      | some name =>
          simp only []
          by_cases hp : name = "player"
          · simp [hp]
          · simp only [hp, if_false, Dict.mem, hgs, Option.isSome_some,
              Bool.not_true, if_neg, reduceIte, not_true, ite_false]
            cases hm : meta.find? gs.current_level with
            | none => simp [hm]
            | some info =>
                simp only [hm]
                cases hc : info.enemy_tank_types.find? tank_type with
                | none => simp [hc]
                | some catalog_count =>
                    simp only [hc]
                    split
                    · simp
                    · split
                      · split <;> simp
                      · simp

/-- C4.  The claim says a successful submission persists a
`LeaderboardEntry` with `stageReached` and `timeSeconds`.  The mapped class
in `models.py` has no `stage_reached` attribute (its columns are
`completed_levels`, `time_seconds`, `formatted_time`, `deaths`, ...), so the
keyword call `LeaderboardEntry(stage_reached=...)` in `submit_score` raises
`TypeError` on every request that reaches it: nothing is ever persisted. -/
theorem submit_score_constructor_type_error :
    leaderboardColumns.contains "stage_reached" = false
    ∧ mkLeaderboardEntry
        [("username", .str "alice"), ("stage_reached", .int 1),
         ("time_seconds", .int 125), ("formatted_time", .str "2:05")] =
        .error ()
    ∧ submit_score 125 true [("r", freshRun 0)] "r" "alice" none =
        .typeError [("r", { freshRun 0 with end_time := some 125 })] := by
  refine ⟨rfl, rfl, rfl⟩

/-- C8.  The claim's two halves presuppose that a submission can succeed.
In the code the `LeaderboardEntry` constructor raises `TypeError` before
`db.add`/`db.commit`/`del ACTIVE_RUNS[run_id]` are reached, so no submission
ever succeeds and the run is never removed — whether the database commit
would succeed or not, a resubmission finds the run still present (with its
`end_time` frozen by the first attempt). -/
theorem submit_score_never_removes_run :
    submit_score 61 true [("s", freshRun 1)] "s" "bob" none =
      .typeError [("s", { freshRun 1 with end_time := some 61 })]
    ∧ submit_score 61 false [("s", freshRun 1)] "s" "bob" none =
      .typeError [("s", { freshRun 1 with end_time := some 61 })]
    ∧ (Dict.find? [("s", { freshRun 1 with end_time := some 61 })] "s").isSome
        = true
    ∧ submit_score 100 true
        [("s", { freshRun 1 with end_time := some 61 })] "s" "bob" none =
      .typeError [("s", { freshRun 1 with end_time := some 61 })] := by
  refine ⟨rfl, rfl, rfl, rfl⟩

/-- C5 counterexample.  In a grid row `3 3`, both cells carry the player
code; the claim says the catalog records the FIRST occurrence `(x=0, y=0)`
and ignores the later one, but the scan overwrites the spawn on every
occurrence, so the recorded spawn is the LAST occurrence `(x=1, y=0)`. -/
theorem player_spawn_last_occurrence_counterexample :
    (parseLevelContent "3 3").player_spawn = some ⟨1, 0⟩ := by
  rfl

/-- C5 amended.  Cell semantics of the catalog scan: a digit cell of code 3
always (over)writes the player spawn with its own position, so the last
occurrence wins; a digit cell of code above 3 increments that enemy type's
count and leaves the spawn alone; a non-digit cell or a digit cell of code
at most 2 changes nothing. -/
theorem player_spawn_cell_semantics :
    (∀ row col acc, processCell row col "3" acc =
        { acc with player_spawn := some ⟨col, row⟩ })
    ∧ (∀ row col acc cell, pyIsDigit cell = true → pyToNat cell > 3 →
        processCell row col cell acc =
          { acc with tank_counts :=
              (acc.tank_counts.insert (pyToNat cell)
                ((acc.tank_counts.find? (pyToNat cell)).getD 0 + 1)) })
    ∧ (∀ row col acc cell, pyIsDigit cell = true → pyToNat cell ≤ 2 →
        processCell row col cell acc = acc)
    ∧ (∀ row col acc cell, pyIsDigit cell = false →
        processCell row col cell acc = acc)
    ∧ (parseLevelContent "3 3").player_spawn = some ⟨1, 0⟩ := by
  refine ⟨?_, ?_, ?_, ?_, rfl⟩
  · intro row col acc
    rfl
  · intro row col acc cell hdig hgt
    simp only [processCell, hdig, if_true]
    have h3 : pyToNat cell ≠ 3 := by omega
    simp [h3, hgt]
  · intro row col acc cell hdig hle
    simp only [processCell, hdig, if_true]
    have h3 : pyToNat cell ≠ 3 := by omega
    have hgt : ¬ pyToNat cell > 3 := by omega
    simp [h3, hgt]
  · intro row col acc cell hdig
    simp [processCell, hdig]

/-- C5 witness: the cell semantics evaluated at concrete cells. -/
theorem player_spawn_cell_semantics_witness :
    processCell 0 1 "3" ⟨[], some ⟨0, 0⟩⟩ =
      { tank_counts := [], player_spawn := some ⟨1, 0⟩ }
    ∧ processCell 2 0 "5" ⟨[(5, 1)], none⟩ =
      { tank_counts := [(5, 2)], player_spawn := none }
    ∧ processCell 0 0 "2" ⟨[], none⟩ = ⟨[], none⟩
    ∧ processCell 0 0 "wall" ⟨[], none⟩ = ⟨[], none⟩ :=
  ⟨player_spawn_cell_semantics.1 0 1 ⟨[], some ⟨0, 0⟩⟩,
   player_spawn_cell_semantics.2.1 2 0 ⟨[(5, 1)], none⟩ "5" (by decide)
     (by decide),
   player_spawn_cell_semantics.2.2.1 0 0 ⟨[], none⟩ "2" (by decide)
     (by decide),
   player_spawn_cell_semantics.2.2.2.1 0 0 ⟨[], none⟩ "wall" (by decide)⟩

/-- C6 counterexample.  The claim says loading fails with `CatalogError`
when no level files are found, fatally.  The loader has no failure path:
with an empty `maps` directory, startup completes and the process serves
with an empty catalog. -/
theorem startup_serves_empty_catalog :
    startupOutcome [] = .serving [] := by
  rfl

/-- C6 amended.  Catalog loading cannot fail: for every file list the
process begins serving with whatever catalog `preprocess_levels` produced,
and an empty directory yields an empty catalog (there is no `CatalogError`
and no fatal-startup path in the code). -/
theorem startup_never_fatal :
    (∀ files, ∃ catalog, startupOutcome files = .serving catalog
        ∧ catalog = preprocess_levels files)
    ∧ preprocess_levels [] = [] :=
  ⟨fun files => ⟨preprocess_levels files, rfl, rfl⟩, rfl⟩

/-- C10.  A grid line that contains no space character fails the
`' ' in line` guard, so the row loop skips it entirely: it contributes no
enemy counts and no player spawn, whatever its content. -/
theorem spaceless_line_ignored (row_idx : Nat) (line : String)
    (acc : ScanAcc) (h : line.data.contains ' ' = false) :
    processLine row_idx line acc = acc := by
  unfold processLine
  rw [h]
  simp

/-- C10 witness: a row consisting of the single digit token `5` (an enemy
code) is ignored, also at the whole-file level. -/
theorem spaceless_line_ignored_witness :
    processLine 0 "5" ⟨[], none⟩ = ⟨[], none⟩
    ∧ (parseLevelContent "5").enemy_tank_types = []
    ∧ (parseLevelContent "5").player_spawn = none :=
  ⟨spaceless_line_ignored 0 "5" ⟨[], none⟩ (by decide), rfl, rfl⟩

/-- C9.  A `POST /game-event` reporting the player tank type (code 3) on an
existing run deletes the current level's elimination dict, answers with the
"level reset" response, and changes nothing else: every other level's
counts, `completed_levels`, `current_level`, the timestamps, and every other
run in the store are untouched.  (`hkeys` states that the per-level dict has
unique keys, as every Python dict does.) -/
theorem player_event_resets_level_only (files : List Nat)
    (meta : Dict Nat LevelInfo) (runs : Dict String GameState)
    (run_id : String) (gs : GameState)
    (hgs : runs.find? run_id = some gs)
    (hkeys : (Dict.keys gs.tanks_eliminated).Nodup) :
    ∃ gs',
      game_event files meta runs run_id 3 =
        .ok { message := "Player eliminated - level reset"
              level_reset := some true
              current_level := some gs.current_level }
           (runs.insert run_id gs')
      ∧ gs'.tanks_eliminated.find? gs.current_level = none
      ∧ (∀ l, l ≠ gs.current_level →
            gs'.tanks_eliminated.find? l = gs.tanks_eliminated.find? l)
      ∧ gs'.current_level = gs.current_level
      ∧ gs'.completed_levels = gs.completed_levels
      ∧ gs'.start_time = gs.start_time
      ∧ gs'.end_time = gs.end_time
      ∧ gs'.total_eliminated = gs.total_eliminated
      ∧ (∀ rid', rid' ≠ run_id →
            (runs.insert run_id gs').find? rid' = runs.find? rid') := by
  refine ⟨{ gs with
            tanks_eliminated := gs.tanks_eliminated.erase gs.current_level },
          ?_, ?_, ?_, rfl, rfl, rfl, rfl, rfl, ?_⟩
  · unfold game_event
    rw [hgs]
    rfl
  · exact Dict.find?_erase_self _ _ hkeys
  · intro l hl
    exact Dict.find?_erase_ne _ _ _ hl
  · intro rid' hr
    exact Dict.find?_insert_ne _ _ _ _ hr

/-- A concrete two-level run used as the C9 witness. -/
def twoLevelRun : GameState :=
  { current_level := 2
    tanks_eliminated := [(1, [(4, 1)]), (2, [(5, 2)])]
    total_eliminated := 0
    start_time := 0
    end_time := none
    completed_levels := [1] }

/-- C9 witness: the reset evaluated on a run that already has counts on
levels 1 and 2 and currently plays level 2. -/
theorem player_event_resets_level_only_witness :
    ∃ gs',
      game_event [1, 2] [] [("r", twoLevelRun)] "r" 3 =
        .ok { message := "Player eliminated - level reset"
              level_reset := some true
              current_level := some twoLevelRun.current_level }
           (Dict.insert [("r", twoLevelRun)] "r" gs')
      ∧ gs'.tanks_eliminated.find? twoLevelRun.current_level = none
      ∧ (∀ l, l ≠ twoLevelRun.current_level →
            gs'.tanks_eliminated.find? l = twoLevelRun.tanks_eliminated.find? l)
      ∧ gs'.current_level = twoLevelRun.current_level
      ∧ gs'.completed_levels = twoLevelRun.completed_levels
      ∧ gs'.start_time = twoLevelRun.start_time
      ∧ gs'.end_time = twoLevelRun.end_time
      ∧ gs'.total_eliminated = twoLevelRun.total_eliminated
      ∧ (∀ rid', rid' ≠ "r" →
            (Dict.insert [("r", twoLevelRun)] "r" gs').find? rid' =
              Dict.find? [("r", twoLevelRun)] rid') :=
  player_event_resets_level_only [1, 2] [] [("r", twoLevelRun)] "r"
    twoLevelRun rfl (by decide)

theorem pyInt_of_nonneg (q : ℚ) (h : 0 ≤ q) : pyInt q = Int.floor q :=
  if_pos h

theorem pyMod60_nonneg (t : ℚ) : 0 ≤ pyMod60 t := by
  unfold pyMod60
  have h : (Int.floor (t / 60) : ℚ) ≤ t / 60 := Int.floor_le (t / 60)
  have h60 : (60 : ℚ) * (t / 60) = t := by ring
  nlinarith

/-- C7.  `POST /get-final-stats` on an existing run freezes `end_time` on
the first call (later calls leave it unchanged), and a second call returns
the identical response and the identical store; the reported time is
`endTime - startTime` truncated toward zero, formatted minutes:seconds with
the seconds zero-padded.  (`hmono` says the clock did not run backwards
between run creation and the freeze.) -/
theorem get_final_stats_idempotent (now₁ now₂ : ℚ)
    (runs : Dict String GameState) (run_id : String) (gs : GameState)
    (hgs : runs.find? run_id = some gs)
    (hmono : gs.start_time ≤ gs.end_time.getD now₁) :
    ∃ resp runs₁ gs₁,
      get_final_stats now₁ runs run_id = .ok (resp, runs₁)
      ∧ runs₁ = runs.insert run_id gs₁
      ∧ gs₁.end_time = some (gs.end_time.getD now₁)
      ∧ (gs.end_time ≠ none → gs₁ = gs)
      ∧ get_final_stats now₂ runs₁ run_id = .ok (resp, runs₁)
      ∧ resp.time =
          formatMMSS (pyInt ((gs.end_time.getD now₁ - gs.start_time) / 60))
            (pyInt (pyMod60 (gs.end_time.getD now₁ - gs.start_time)))
      ∧ resp.final_level = gs.current_level := by
  have hfmt : ∀ t : ℚ, 0 ≤ t →
      formatMMSS (pyFloorDiv60 t) (Int.floor (pyMod60 t)) =
        formatMMSS (pyInt (t / 60)) (pyInt (pyMod60 t)) := by
    intro t ht
    rw [pyInt_of_nonneg _ (div_nonneg ht (by norm_num)),
        pyInt_of_nonneg _ (pyMod60_nonneg t)]
    rfl
  cases hend : gs.end_time with
  | none =>
      have ht : (0 : ℚ) ≤ now₁ - gs.start_time := by
        rw [hend] at hmono
        simp at hmono
        linarith
      refine ⟨{ final_level := gs.current_level
                time := formatMMSS (pyFloorDiv60 (now₁ - gs.start_time))
                  (Int.floor (pyMod60 (now₁ - gs.start_time))) },
              runs.insert run_id { gs with end_time := some now₁ },
              { gs with end_time := some now₁ },
              ?_, rfl, by simp [hend], ?_, ?_, ?_, rfl⟩
      · simp [get_final_stats, hgs, hend]
      · intro h
        exact absurd rfl h
      · simp [get_final_stats, Dict.find?_insert_self,
          Dict.insert_insert_self]
      · simpa [hend] using hfmt (now₁ - gs.start_time) ht
  | some e =>
      have ht : (0 : ℚ) ≤ e - gs.start_time := by
        rw [hend] at hmono
        simp at hmono
        linarith
      refine ⟨{ final_level := gs.current_level
                time := formatMMSS (pyFloorDiv60 (e - gs.start_time))
                  (Int.floor (pyMod60 (e - gs.start_time))) },
              runs.insert run_id gs, gs,
              ?_, rfl, by simp [hend], fun _ => rfl, ?_, ?_, rfl⟩
      · simp [get_final_stats, hgs, hend]
      · simp [get_final_stats, Dict.find?_insert_self,
          Dict.insert_insert_self, hend]
      · simpa [hend] using hfmt (e - gs.start_time) ht

theorem TANK_TYPES_find_player (t : Nat)
    (h : TANK_TYPES.find? t = some "player") : t = 3 := by
  simp only [TANK_TYPES, Dict.find?] at h
  split_ifs at h with h3 h4 h5 h6 h7 h8
  · exact h3
  all_goals exact absurd h (by decide)

/-- Anatomy of one successful enemy-elimination `game_event`: it increments
the current level's sum by one, reports completion exactly when the new sum
equals the level's total, and on completion appends the level to
`completed_levels` and advances `current_level` iff the next level file
exists. -/
theorem game_event_enemy_step (files : List Nat) (meta : Dict Nat LevelInfo)
    (runs : Dict String GameState) (run_id : String) (t : Nat)
    (gs : GameState) (info : LevelInfo)
    (hgs : runs.find? run_id = some gs)
    (hinfo : meta.find? gs.current_level = some info)
    (ht : t ≠ 3)
    (resp : EventResp) (runs' : Dict String GameState)
    (hstep : game_event files meta runs run_id t = .ok resp runs') :
    ∃ gs',
      runs' = runs.insert run_id gs'
      ∧ levelSum gs' gs.current_level = levelSum gs gs.current_level + 1
      ∧ resp.level_complete =
          some (decide (levelSum gs gs.current_level + 1 =
            info.total_enemy_tanks))
      ∧ resp.next_level =
          (if levelSum gs gs.current_level + 1 = info.total_enemy_tanks ∧
              gs.current_level + 1 ∈ files then
            some (gs.current_level + 1) else none)
      ∧ resp.game_complete =
          (if levelSum gs gs.current_level + 1 = info.total_enemy_tanks ∧
              gs.current_level + 1 ∉ files then
            some true else none)
      ∧ gs'.completed_levels =
          (if levelSum gs gs.current_level + 1 = info.total_enemy_tanks then
            gs.completed_levels ++ [gs.current_level]
           else gs.completed_levels)
      ∧ gs'.current_level =
          (if levelSum gs gs.current_level + 1 = info.total_enemy_tanks ∧
              gs.current_level + 1 ∈ files then
            gs.current_level + 1 else gs.current_level) := by
  have hmem : ¬¬(runs.mem run_id = true) := by simp [Dict.mem, hgs]
  simp only [game_event, hgs] at hstep
  cases htt : TANK_TYPES.find? t with
  | none =>
      rw [htt] at hstep
      exact absurd hstep (by simp)
  | some name =>
      have hp : ¬(name = "player") := by
        intro hp
        exact ht (TANK_TYPES_find_player t (hp ▸ htt))
      rw [htt] at hstep
      simp only [hp, if_false, if_neg hmem, hinfo] at hstep
      cases hcat : info.enemy_tank_types.find? t with
      | none =>
          rw [hcat] at hstep
          exact absurd hstep (by simp)
      | some catalog_count =>
          simp only [hcat] at hstep
          split at hstep
          · exact absurd hstep (by simp)
          · rw [Dict.valuesSum_bump] at hstep
            split at hstep
            · rename_i hover hc
              split at hstep
              all_goals rename_i hnext
              all_goals injection hstep with h1 h2
              all_goals subst h1
              all_goals refine ⟨_, h2.symm, ?_, ?_, ?_, ?_, ?_, ?_⟩
              all_goals
                simp [levelSum, Dict.find?_insert_self, Dict.valuesSum_bump,
                  hc, hnext]
            · rename_i hover hc
              injection hstep with h1 h2
              subst h1
              refine ⟨_, h2.symm, ?_, ?_, ?_, ?_, ?_, ?_⟩
              all_goals
                simp [levelSum, Dict.find?_insert_self, Dict.valuesSum_bump,
                  hc]

theorem getLast?_cons_of_ne_nil {α : Type} (a : α) (l : List α)
    (h : l ≠ []) : (a :: l).getLast? = l.getLast? := by
  cases l with
  | nil => exact absurd rfl h
  | cons b l' => exact List.getLast?_cons_cons

/-- Invariant of a successful run of enemy-elimination events, generalized
over the starting sum `levelSum gs gs.current_level`. -/
theorem runEvents_level_aux (files : List Nat) (meta : Dict Nat LevelInfo)
    (run_id : String) (info : LevelInfo) :
    ∀ (es : List Nat) (runs : Dict String GameState) (gs : GameState),
      runs.find? run_id = some gs →
      meta.find? gs.current_level = some info →
      (∀ t ∈ es, t ≠ 3) →
      levelSum gs gs.current_level + es.length ≤ info.total_enemy_tanks →
      ∀ runs' resps,
        runEvents files meta runs run_id es = some (runs', resps) →
        resps.length = es.length
        ∧ (∀ i (h : i < resps.length),
            (resps.get ⟨i, h⟩).level_complete =
              some (decide (levelSum gs gs.current_level + i + 1 =
                info.total_enemy_tanks)))
        ∧ resps.countP (fun r => decide (r.level_complete = some true)) =
            (if levelSum gs gs.current_level + es.length =
                  info.total_enemy_tanks ∧ es ≠ [] then 1 else 0)
        ∧ (levelSum gs gs.current_level + es.length =
              info.total_enemy_tanks ∧ es ≠ [] →
            ∃ r, resps.getLast? = some r ∧ r.level_complete = some true
              ∧ (gs.current_level + 1 ∈ files →
                  r.next_level = some (gs.current_level + 1))
              ∧ (gs.current_level + 1 ∉ files →
                  r.game_complete = some true))
        ∧ ∃ gs', runs'.find? run_id = some gs'
            ∧ levelSum gs' gs.current_level =
                levelSum gs gs.current_level + es.length
            ∧ gs'.completed_levels =
                (if levelSum gs gs.current_level + es.length =
                      info.total_enemy_tanks ∧ es ≠ [] then
                  gs.completed_levels ++ [gs.current_level]
                 else gs.completed_levels)
            ∧ gs'.current_level =
                (if levelSum gs gs.current_level + es.length =
                      info.total_enemy_tanks ∧ es ≠ [] ∧
                      gs.current_level + 1 ∈ files then
                  gs.current_level + 1 else gs.current_level) := by
  intro es
  induction es with
  | nil =>
      intro runs gs hgs hinfo henemy hlen runs' resps hrun
      simp only [runEvents, Option.some.injEq, Prod.mk.injEq] at hrun
      obtain ⟨hr1, hr2⟩ := hrun
      subst hr1
      subst hr2
      refine ⟨rfl, ?_, ?_, ?_, gs, hgs, by simp, by simp, by simp⟩
      · intro i h
        exact absurd h (by simp)
      · simp
      · simp
  | cons t ts ih =>
      intro runs gs hgs hinfo henemy hlen runs' resps hrun
      simp only [runEvents] at hrun
      split at hrun
      case h_2 => simp at hrun
      case h_1 resp runs₁ hstep =>
          cases hrec : runEvents files meta runs₁ run_id ts with
          | none =>
              rw [hrec] at hrun
              simp at hrun
          | some p =>
              obtain ⟨runs₂, resps₂⟩ := p
              rw [hrec] at hrun
              simp only [Option.map_some', Option.some.injEq,
                Prod.mk.injEq] at hrun
              obtain ⟨hr1, hr2⟩ := hrun
              subst hr1
              subst hr2
              obtain ⟨gs₁, hruns₁, hsum₁, hlc, hnl, hgc, hcl, hcur⟩ :=
                game_event_enemy_step files meta runs run_id t gs info hgs
                  hinfo (henemy t (by simp)) resp runs₁ hstep
              subst hruns₁
              have hgs₁ : (runs.insert run_id gs₁).find? run_id = some gs₁ :=
                Dict.find?_insert_self _ _ _
              by_cases hc : levelSum gs gs.current_level + 1 =
                  info.total_enemy_tanks
              · -- the event completed the level: no further event fits
                have hts : ts = [] := by
                  have := hlen
                  simp only [List.length_cons] at this
                  have : ts.length = 0 := by omega
                  exact List.length_eq_zero.mp this
                subst hts
                simp only [runEvents, Option.some.injEq,
                  Prod.mk.injEq] at hrec
                obtain ⟨hq1, hq2⟩ := hrec
                subst hq1
                subst hq2
                refine ⟨by simp, ?_, ?_, ?_, gs₁, hgs₁, ?_, ?_, ?_⟩
                · intro i h
                  simp only [List.length_singleton] at h
                  have hi : i = 0 := by omega
                  subst hi
                  simpa using hlc
                · simp [hlc, hc]
                · intro _
                  refine ⟨resp, by simp, by simp [hlc, hc], ?_, ?_⟩
                  · intro hf
                    simp [hnl, hc, hf]
                  · intro hf
                    simp [hgc, hc, hf]
                · simpa using hsum₁
                · simp only [List.length_singleton]
                  rw [hcl]
                  simp [hc]
                · simp only [List.length_singleton]
                  rw [hcur]
                  by_cases hf : gs.current_level + 1 ∈ files <;>
                    simp [hc, hf]
              · -- not complete: recurse on the tail
                have hcur' : gs₁.current_level = gs.current_level := by
                  rw [hcur]
                  simp [hc]
                have hcl' : gs₁.completed_levels = gs.completed_levels := by
                  rw [hcl]
                  simp [hc]
                have hinfo₁ : meta.find? gs₁.current_level = some info := by
                  rw [hcur']
                  exact hinfo
                have hsum₁' : levelSum gs₁ gs₁.current_level =
                    levelSum gs gs.current_level + 1 := by
                  rw [hcur']
                  exact hsum₁
                have hlen₁ : levelSum gs₁ gs₁.current_level + ts.length ≤
                    info.total_enemy_tanks := by
                  rw [hsum₁']
                  simp only [List.length_cons] at hlen
                  omega
                obtain ⟨ihA, ihC, ihD, ihE, gs', hgs', ihsum, ihcl, ihcur⟩ :=
                  ih (runs.insert run_id gs₁) gs₁ hgs₁ hinfo₁
                    (fun u hu => henemy u (by simp [hu])) hlen₁
                    runs₂ resps₂ hrec
                rw [hcur'] at ihC ihD ihE ihsum ihcl ihcur
                rw [hsum₁] at ihC ihD ihE ihsum ihcl ihcur
                rw [hcl'] at ihcl
                have harith : ∀ n : Nat,
                    levelSum gs gs.current_level + 1 + n =
                      levelSum gs gs.current_level + (n + 1) := by
                  intro n
                  omega
                constructor
                · simp [ihA]
                constructor
                · intro i h
                  cases i with
                  | zero => simpa using hlc
                  | succ j =>
                      simp only [List.length_cons] at h
                      have hj : j < resps₂.length := by omega
                      have := ihC j hj
                      rw [harith j] at this
                      simpa using this
                constructor
                · rw [List.countP_cons]
                  have hna : ¬(resp.level_complete = some true) := by
                    rw [hlc]
                    simp [hc]
                  rw [ihD]
                  simp only [List.length_cons, hna, decide_eq_true_eq]
                  rw [harith ts.length]
                  by_cases hT : levelSum gs gs.current_level +
                      (ts.length + 1) = info.total_enemy_tanks
                  · have hts : ts ≠ [] := by
                      intro hnil
                      subst hnil
                      simp at hT
                      omega
                    simp [hT, hts]
                  · simp [hT]
                constructor
                · intro hcomp
                  obtain ⟨hceq, _⟩ := hcomp
                  rw [List.length_cons] at hceq
                  have hcomp' : levelSum gs gs.current_level + 1 + ts.length =
                      info.total_enemy_tanks := by omega
                  have hts : ts ≠ [] := by
                    intro hnil
                    subst hnil
                    simp at hcomp'
                    omega
                  have hr2 : resps₂ ≠ [] := by
                    intro hnil
                    rw [hnil] at ihA
                    simp at ihA
                    exact hts (List.length_eq_zero.mp ihA.symm)
                  obtain ⟨r, hrlast, hrc, hrn, hrg⟩ := ihE ⟨hcomp', hts⟩
                  refine ⟨r, ?_, hrc, hrn, hrg⟩
                  rw [getLast?_cons_of_ne_nil resp resps₂ hr2]
                  exact hrlast
                · refine ⟨gs', hgs', ?_, ?_, ?_⟩
                  · rw [ihsum, List.length_cons, harith ts.length]
                  · rw [ihcl, List.length_cons, harith ts.length]
                    by_cases hT : levelSum gs gs.current_level +
                        (ts.length + 1) = info.total_enemy_tanks
                    · have hts : ts ≠ [] := by
                        intro hnil
                        subst hnil
                        simp at hT
                        omega
                      simp [hT, hts]
                    · simp [hT]
                  · rw [ihcur, List.length_cons, harith ts.length]
                    by_cases hT : levelSum gs gs.current_level +
                        (ts.length + 1) = info.total_enemy_tanks
                    · have hts : ts ≠ [] := by
                        intro hnil
                        subst hnil
                        simp at hT
                        omega
                      simp [hT, hts]
                    · simp [hT]

/-- C7 witness: a fresh run started at time 0 queried at 125 and again at
300 seconds. -/
theorem get_final_stats_idempotent_witness :
    ∃ resp runs₁ gs₁,
      get_final_stats 125 [("r", freshRun 0)] "r" = .ok (resp, runs₁)
      ∧ runs₁ = Dict.insert [("r", freshRun 0)] "r" gs₁
      ∧ gs₁.end_time = some ((freshRun 0).end_time.getD 125)
      ∧ ((freshRun 0).end_time ≠ none → gs₁ = freshRun 0)
      ∧ get_final_stats 300 runs₁ "r" = .ok (resp, runs₁)
      ∧ resp.time =
          formatMMSS
            (pyInt (((freshRun 0).end_time.getD 125 -
              (freshRun 0).start_time) / 60))
            (pyInt (pyMod60 ((freshRun 0).end_time.getD 125 -
              (freshRun 0).start_time)))
      ∧ resp.final_level = (freshRun 0).current_level :=
  get_final_stats_idempotent 125 300 [("r", freshRun 0)] "r" (freshRun 0)
    rfl (by norm_num [freshRun])

/-- C3.  For a run starting a level with no recorded eliminations, any
sequence of successful enemy-elimination events of length at most the
level's `totalEnemyTanks` satisfies: each response reports completion
exactly iff the running sum (one per event) has just reached
`totalEnemyTanks`; completion is reported at most once, exactly when the
sequence length equals the total; on completion the level is appended to
`completedLevels` and `currentLevel` advances iff the next level file
exists (else the final response carries `game_complete`); and the run is
never removed from the store.  The recorded sum never exceeds the total. -/
theorem level_completion_exactly_once
    (files : List Nat) (meta : Dict Nat LevelInfo)
    (runs : Dict String GameState) (run_id : String) (gs : GameState)
    (info : LevelInfo) (es : List Nat)
    (hgs : runs.find? run_id = some gs)
    (hinfo : meta.find? gs.current_level = some info)
    (hfresh : gs.tanks_eliminated.find? gs.current_level = none)
    (henemy : ∀ t ∈ es, t ≠ 3)
    (hlen : es.length ≤ info.total_enemy_tanks)
    (runs' : Dict String GameState) (resps : List EventResp)
    (hrun : runEvents files meta runs run_id es = some (runs', resps)) :
    resps.length = es.length
    ∧ (∀ i (h : i < resps.length),
        (resps.get ⟨i, h⟩).level_complete =
          some (decide (i + 1 = info.total_enemy_tanks)))
    ∧ resps.countP (fun r => decide (r.level_complete = some true)) =
        (if es.length = info.total_enemy_tanks ∧ es ≠ [] then 1 else 0)
    ∧ (es.length = info.total_enemy_tanks ∧ es ≠ [] →
        ∃ r, resps.getLast? = some r ∧ r.level_complete = some true
          ∧ (gs.current_level + 1 ∈ files →
              r.next_level = some (gs.current_level + 1))
          ∧ (gs.current_level + 1 ∉ files → r.game_complete = some true))
    ∧ ∃ gs', runs'.find? run_id = some gs'
        ∧ levelSum gs' gs.current_level = es.length
        ∧ levelSum gs' gs.current_level ≤ info.total_enemy_tanks
        ∧ gs'.completed_levels =
            (if es.length = info.total_enemy_tanks ∧ es ≠ [] then
              gs.completed_levels ++ [gs.current_level]
             else gs.completed_levels)
        ∧ gs'.current_level =
            (if es.length = info.total_enemy_tanks ∧ es ≠ [] ∧
                gs.current_level + 1 ∈ files then
              gs.current_level + 1 else gs.current_level) := by
  have hm : levelSum gs gs.current_level = 0 := by
    simp [levelSum, hfresh, Dict.valuesSum]
  obtain ⟨hA, hC, hD, hE, gs', h1, h2, h3, h4⟩ :=
    runEvents_level_aux files meta run_id info es runs gs hgs hinfo henemy
      (by rw [hm]; simpa using hlen) runs' resps hrun
  rw [hm] at hC hD hE h2 h3 h4
  simp only [Nat.zero_add] at hC hD hE h2 h3 h4
  refine ⟨hA, hC, hD, hE, gs', h1, h2, ?_, h3, h4⟩
  rw [h2]
  exact hlen

/-- The final store of the C3 witness trace. -/
def c3RunsAfter : Dict String GameState :=
  [("r",
    { current_level := 2
      tanks_eliminated := [(1, [(4, 1), (5, 1)])]
      total_eliminated := 0
      start_time := 0
      end_time := none
      completed_levels := [1] })]

/-- The responses of the C3 witness trace. -/
def c3Resps : List EventResp :=
  [{ message := "Tank elimination recorded"
     tank_type := some 4
     level_complete := some false },
   { message := "Level complete! Advancing to next level."
     tank_type := some 5
     level_complete := some true
     next_level := some 2 }]

/-- C3 witness: a two-tank level 1 (`4 5`) with a level-2 file present,
played to completion with the events `[4, 5]`. -/
theorem level_completion_exactly_once_witness :
    c3Resps.length = [4, 5].length
    ∧ (∀ i (h : i < c3Resps.length),
        (c3Resps.get ⟨i, h⟩).level_complete =
          some (decide (i + 1 = (parseLevelContent "4 5").total_enemy_tanks)))
    ∧ c3Resps.countP (fun r => decide (r.level_complete = some true)) =
        (if [4, 5].length = (parseLevelContent "4 5").total_enemy_tanks ∧
            ([4, 5] : List Nat) ≠ [] then 1 else 0)
    ∧ ([4, 5].length = (parseLevelContent "4 5").total_enemy_tanks ∧
          ([4, 5] : List Nat) ≠ [] →
        ∃ r, c3Resps.getLast? = some r ∧ r.level_complete = some true
          ∧ ((freshRun 0).current_level + 1 ∈ [1, 2] →
              r.next_level = some ((freshRun 0).current_level + 1))
          ∧ ((freshRun 0).current_level + 1 ∉ [1, 2] →
              r.game_complete = some true))
    ∧ ∃ gs', c3RunsAfter.find? "r" = some gs'
        ∧ levelSum gs' (freshRun 0).current_level = [4, 5].length
        ∧ levelSum gs' (freshRun 0).current_level ≤
            (parseLevelContent "4 5").total_enemy_tanks
        ∧ gs'.completed_levels =
            (if [4, 5].length = (parseLevelContent "4 5").total_enemy_tanks ∧
                ([4, 5] : List Nat) ≠ [] then
              (freshRun 0).completed_levels ++ [(freshRun 0).current_level]
             else (freshRun 0).completed_levels)
        ∧ gs'.current_level =
            (if [4, 5].length = (parseLevelContent "4 5").total_enemy_tanks ∧
                ([4, 5] : List Nat) ≠ [] ∧
                (freshRun 0).current_level + 1 ∈ [1, 2] then
              (freshRun 0).current_level + 1
             else (freshRun 0).current_level) :=
  level_completion_exactly_once [1, 2] [(1, parseLevelContent "4 5")]
    [("r", freshRun 0)] "r" (freshRun 0) (parseLevelContent "4 5") [4, 5]
    rfl rfl rfl (by decide) (by decide) c3RunsAfter c3Resps (by decide)

end GridTanks
